import Mathlib

/-!
Shallow embedding of the pricing-analysis script of this repository
(`analyze_csv_data.py`).  Prices, scores and quantities are modelled as
exact rationals; a value that can be missing after a left join (a pandas
`NaN`) is modelled as an `Option`.  Comparisons against a missing value
are false, exactly as `NaN` comparisons are false in the source.
Rounding to `n` decimals is modelled as round-half-to-even on the scaled
value, the rounding used by Python's `round`.
-/

namespace Pricing

section

attribute [local semireducible] Rat.mul Rat.add Rat.sub Rat.inv Rat.ofScientific

/-- Round-half-to-even of a rational to an integer (Python `round(x)`). -/
def roundHalfEven (x : ℚ) : ℤ :=
  if x - (Rat.floor x : ℚ) < 1/2 then Rat.floor x
  else if 1/2 < x - (Rat.floor x : ℚ) then Rat.floor x + 1
  else if Rat.floor x % 2 = 0 then Rat.floor x else Rat.floor x + 1

/-- Python `round(x, 2)`. -/
def rnd2 (x : ℚ) : ℚ := (roundHalfEven (x * 100) : ℚ) / 100

/-- Python `round(x, 1)`. -/
def rnd1 (x : ℚ) : ℚ := (roundHalfEven (x * 10) : ℚ) / 10

/-- Enumerated `stock_status` column of the inventory table. -/
inductive StockStatus
  | in_stock
  | low_stock
  | out_of_stock
deriving DecidableEq

/-- The `action` field of an emitted recommendation. -/
inductive Action
  | INCREASE
  | DECREASE
deriving DecidableEq

/-- The `reason` field of an emitted recommendation; the source builds a
format string carrying the shown value, modelled here as the carried data. -/
inductive Reason
  | highDemand (score : ℚ)
  | lowDemand (score : ℚ)
  | aboveCompetitors (avg : ℚ)
  | lowStockSustained
deriving DecidableEq

/-- A row of the `products` table (the columns the engine reads). -/
structure Product where
  product_id : Nat
  product_name : String
  current_price : ℚ
  min_price : ℚ
  max_price : ℚ
deriving DecidableEq

/-- A row of the `inventory` table (the columns the engine reads). -/
structure InventoryRecord where
  product_id : Nat
  quantity_available : ℚ
  stock_status : StockStatus
deriving DecidableEq

/-- A row of the `demand_metrics` table (the columns the engine reads);
dates are integers ordered as the parsed dates are. -/
structure DemandSnapshot where
  product_id : Nat
  date : Int
  demand_score : ℚ
  purchase_count : ℚ
deriving DecidableEq

/-- A row of the `competitor_prices` table (the columns the engine reads). -/
structure CompetitorPriceObs where
  product_id : Nat
  competitor_price : ℚ
deriving DecidableEq

/-- One row of the merged view built in `pricing_recommendations`:
product columns are always present, left-joined columns are optional. -/
structure Row where
  product_name : String
  current_price : ℚ
  min_price : ℚ
  max_price : ℚ
  quantity_available : Option ℚ
  stock_status : Option StockStatus
  demand_score : Option ℚ
  avg_competitor_price : Option ℚ
deriving DecidableEq

/-- An emitted recommendation record. -/
structure Recommendation where
  product_name : String
  current_price : ℚ
  recommended_price : ℚ
  action : Action
  change_pct : ℚ
  reason : Reason
deriving DecidableEq

/-- Comparison `v > c` on a possibly missing value: false on `NaN`, as in pandas. -/
def optGT (o : Option ℚ) (c : ℚ) : Bool :=
  match o with
  | some v => decide (c < v)
  | none => false

/-- Comparison `v < c` on a possibly missing value: false on `NaN`, as in pandas. -/
def optLT (o : Option ℚ) (c : ℚ) : Bool :=
  match o with
  | some v => decide (v < c)
  | none => false

/-- Rule 3 guard: `pd.notna(avg_competitor_price) and
current_price > avg_competitor_price * 1.05`. -/
def compCond (row : Row) : Bool :=
  match row.avg_competitor_price with
  | some a => decide (a * 1.05 < row.current_price)
  | none => false

/-- Building of the appended record: the recommended price is rounded to
2 decimals, while `change_pct` is computed from the unrounded price. -/
def emit (row : Row) (raw : ℚ) (a : Action) (why : Reason) : Recommendation :=
  { product_name := row.product_name
    current_price := row.current_price
    recommended_price := rnd2 raw
    action := a
    change_pct := rnd2 ((raw - row.current_price) / row.current_price * 100)
    reason := why }

/-- The rule ladder of `pricing_recommendations` (lines 262-300): first
matching rule wins, at most one record per row. -/
def recommend (row : Row) : Option Recommendation :=
  if optGT row.demand_score 7.5 && optGT row.quantity_available 50 then
    some (emit row (min (row.current_price * 1.05) row.max_price)
      Action.INCREASE (Reason.highDemand (row.demand_score.getD 0)))
  else if optLT row.demand_score 5 && optGT row.quantity_available 100 then
    some (emit row (max (row.current_price * 0.92) row.min_price)
      Action.DECREASE (Reason.lowDemand (row.demand_score.getD 0)))
  else if compCond row then
    some (emit row (max ((row.avg_competitor_price.getD 0) * 0.98) row.min_price)
      Action.DECREASE (Reason.aboveCompetitors (row.avg_competitor_price.getD 0)))
  else if row.stock_status == some StockStatus.low_stock && optGT row.demand_score 6 then
    some (emit row (min (row.current_price * 1.08) row.max_price)
      Action.INCREASE Reason.lowStockSustained)
  else none

/-- The global latest date `demand['date'].max()`: `none` on an empty table. -/
def maxDemandDate (demand : List DemandSnapshot) : Option Int :=
  (demand.map (fun d => d.date)).max?

/-- The latest rows `demand[demand['date'] == demand['date'].max()]`. -/
def latestDemandRows (demand : List DemandSnapshot) : List DemandSnapshot :=
  demand.filter (fun d => decide (some d.date = maxDemandDate demand))

/-- The mean `comp_prices.groupby('product_id')['competitor_price'].mean()` looked
up for one product: `none` when the product has no observations. -/
def avgCompetitorPrice (comps : List CompetitorPriceObs) (pid : Nat) : Option ℚ :=
  let l := (comps.filter (fun c => decide (c.product_id = pid))).map
    (fun c => c.competitor_price)
  if l.isEmpty then none else some (l.sum / (l.length : ℚ))

/-- The merged view row for one product (lines 254-258): left joins keyed
on `product_id`, unmatched keys yield missing values. -/
def buildRow (inventory : List InventoryRecord) (demand : List DemandSnapshot)
    (comps : List CompetitorPriceObs) (p : Product) : Row :=
  let inv := inventory.find? (fun i => decide (i.product_id = p.product_id))
  { product_name := p.product_name
    current_price := p.current_price
    min_price := p.min_price
    max_price := p.max_price
    quantity_available := inv.map (fun i => i.quantity_available)
    stock_status := inv.map (fun i => i.stock_status)
    demand_score := ((latestDemandRows demand).find?
      (fun d => decide (d.product_id = p.product_id))).map (fun d => d.demand_score)
    avg_competitor_price := avgCompetitorPrice comps p.product_id }

/-- Sort key of `sort_values('change_pct', ascending=False)`. -/
def byDesc (a b : Recommendation) : Prop := b.change_pct ≤ a.change_pct

instance : DecidableRel byDesc :=
  fun a b => inferInstanceAs (Decidable (b.change_pct ≤ a.change_pct))

instance : IsTotal Recommendation byDesc :=
  ⟨fun a b => le_total b.change_pct a.change_pct⟩

instance : IsTrans Recommendation byDesc :=
  ⟨fun _ _ _ h1 h2 => le_trans h2 h1⟩

/-- The whole `pricing_recommendations` pipeline: merge, rule ladder,
sort by `change_pct` descending. -/
def pricing_recommendations (products : List Product)
    (inventory : List InventoryRecord) (demand : List DemandSnapshot)
    (comps : List CompetitorPriceObs) : List Recommendation :=
  List.insertionSort byDesc
    ((products.map (buildRow inventory demand comps)).filterMap recommend)

/-- The window `demand[demand['date'] >= demand['date'].max() - timedelta(days=7)]`
from `inventory_alerts`. -/
def recentDemandRows (demand : List DemandSnapshot) : List DemandSnapshot :=
  demand.filter (fun d =>
    match maxDemandDate demand with
    | some m => decide (m - 7 ≤ d.date)
    | none => false)

/-- The rows of one product inside the recent demand window. -/
def productWindow (demand : List DemandSnapshot) (pid : Nat) : List DemandSnapshot :=
  (recentDemandRows demand).filter (fun d => decide (d.product_id = pid))

/-- The `avg_daily_sales` of one product in `inventory_alerts`: mean of
`purchase_count` over the recent window; the left join plus `fillna(0)`
makes it `0` when the product has no rows in the window. -/
def avgDailySales (demand : List DemandSnapshot) (pid : Nat) : ℚ :=
  if (productWindow demand pid).isEmpty then 0
  else ((productWindow demand pid).map (fun d => d.purchase_count)).sum /
    ((productWindow demand pid).length : ℚ)

/-- The `days_of_stock` of `inventory_alerts` (lines 211-213): the quotient,
with the divisor-zero results (`inf`, `-inf` or `NaN` in the source, all
of which arise exactly when `avg_daily_sales` is `0`) replaced by the
sentinel `999`, then rounded to 1 decimal. -/
def days_of_stock (qty sales : ℚ) : ℚ :=
  rnd1 (if sales = 0 then 999 else qty / sales)

/-- A price expressible in whole cents (2 decimal places). -/
def isCent (q : ℚ) : Prop := ∃ m : ℤ, q = (m : ℚ) / 100

/-- Product row whose `max_price` is not a whole number of cents: rule 1
clamps to `max_price = 100.006` and the 2-decimal rounding of the clamped
value crosses the bound. -/
def c1row : Row :=
  { product_name := "E1", current_price := 100, min_price := 10, max_price := 100.006,
    quantity_available := some 60, stock_status := some StockStatus.in_stock,
    demand_score := some 8, avg_competitor_price := none }

/-- Concrete row for the C1 witness: rule 1 fires, bounds are cent-valued. -/
def c1wrow : Row :=
  { product_name := "W1", current_price := 100, min_price := 50, max_price := 120,
    quantity_available := some 60, stock_status := some StockStatus.in_stock,
    demand_score := some 8, avg_competitor_price := none }

/-- The recommendation emitted for `c1wrow`. -/
def c1wrec : Recommendation :=
  { product_name := "W1", current_price := 100, recommended_price := 105,
    action := Action.INCREASE, change_pct := 5, reason := Reason.highDemand 8 }

/-- The scenario row of C4: `current_price=100`, `max_price=120`,
`demand_score=8.0`, `quantity_available=60`. -/
def c4row : Row :=
  { product_name := "P4", current_price := 100, min_price := 50, max_price := 120,
    quantity_available := some 60, stock_status := some StockStatus.in_stock,
    demand_score := some 8, avg_competitor_price := none }

/-- The scenario row of C5: `current_price=50`, `min_price=40`,
`demand_score=4.0`, `quantity_available=150`. -/
def c5row : Row :=
  { product_name := "P5", current_price := 50, min_price := 40, max_price := 80,
    quantity_available := some 150, stock_status := some StockStatus.in_stock,
    demand_score := some 4, avg_competitor_price := none }

/-- A row matching rule 1 (`ds=8`, `qty=60`) and rule 3
(`avg=90`, `90*1.05 < 100`) simultaneously. -/
def c3row : Row :=
  { product_name := "P3", current_price := 100, min_price := 50, max_price := 120,
    quantity_available := some 60, stock_status := some StockStatus.in_stock,
    demand_score := some 8, avg_competitor_price := some 90 }

/-- Concrete row and record for the C6 witness (rule 2 fires). -/
def c6row : Row :=
  { product_name := "P6", current_price := 50, min_price := 40, max_price := 80,
    quantity_available := some 150, stock_status := some StockStatus.in_stock,
    demand_score := some 4, avg_competitor_price := none }

/-- The recommendation emitted for `c6row`. -/
def c6rec : Recommendation :=
  { product_name := "P6", current_price := 50, recommended_price := 46,
    action := Action.DECREASE, change_pct := -8, reason := Reason.lowDemand 4 }

/-- Concrete row for the C9 witness: no inventory columns, competitor
average 10, current price 20. -/
def c9row : Row :=
  { product_name := "P9", current_price := 20, min_price := 1, max_price := 100,
    quantity_available := none, stock_status := none,
    demand_score := some 8, avg_competitor_price := some 10 }

/-- The recommendation emitted for `c9row` (via rule 3). -/
def c9rec : Recommendation :=
  { product_name := "P9", current_price := 20, recommended_price := 9.8,
    action := Action.DECREASE, change_pct := -51,
    reason := Reason.aboveCompetitors 10 }

/-- Row on which the rounding of `recommended_price` makes the stored
`change_pct` differ from one recomputed from the rounded price. -/
def c10row : Row :=
  { product_name := "PX", current_price := 33.33, min_price := 0, max_price := 100,
    quantity_available := some 60, stock_status := some StockStatus.in_stock,
    demand_score := some 8, avg_competitor_price := none }

/-- The recommendation emitted for `c10row`. -/
def c10rec : Recommendation :=
  { product_name := "PX", current_price := 33.33, recommended_price := 35,
    action := Action.INCREASE, change_pct := 5, reason := Reason.highDemand 8 }

/-- Products of the C2 counterexample: product 2 ("B") has no demand
snapshot on the latest date but is priced above its competitor average. -/
def c2prods : List Product :=
  [{ product_id := 1, product_name := "A", current_price := 100,
     min_price := 50, max_price := 120 },
   { product_id := 2, product_name := "B", current_price := 20,
     min_price := 1, max_price := 100 }]

/-- Inventory of the C2 counterexample (empty). -/
def c2inv : List InventoryRecord := []

/-- Demand of the C2 counterexample: the global latest date is 2; product
2's only snapshot is on date 1. -/
def c2dem : List DemandSnapshot :=
  [{ product_id := 1, date := 2, demand_score := 8, purchase_count := 0 },
   { product_id := 2, date := 1, demand_score := 9, purchase_count := 0 }]

/-- Competitor prices of the C2 counterexample. -/
def c2comps : List CompetitorPriceObs :=
  [{ product_id := 2, competitor_price := 10 }]

/-- Concrete row for the C2 witness: product 7 has no snapshot on the
latest date and no competitor data. -/
def c2wdem : List DemandSnapshot :=
  [{ product_id := 1, date := 2, demand_score := 8, purchase_count := 0 },
   { product_id := 7, date := 1, demand_score := 9, purchase_count := 0 }]

/-- The product of the C2 witness. -/
def c2wprod : Product :=
  { product_id := 7, product_name := "W2", current_price := 30,
    min_price := 10, max_price := 60 }

/-- Products of the C7 example run producing `change_pct` values
`[5, -3, 8]` in input order. -/
def c7prods : List Product :=
  [{ product_id := 1, product_name := "A", current_price := 100,
     min_price := 50, max_price := 120 },
   { product_id := 2, product_name := "B", current_price := 100,
     min_price := 97, max_price := 120 },
   { product_id := 3, product_name := "C", current_price := 100,
     min_price := 50, max_price := 120 }]

/-- Inventory of the C7 example run. -/
def c7inv : List InventoryRecord :=
  [{ product_id := 1, quantity_available := 60, stock_status := StockStatus.in_stock },
   { product_id := 2, quantity_available := 10, stock_status := StockStatus.in_stock },
   { product_id := 3, quantity_available := 10, stock_status := StockStatus.low_stock }]

/-- Demand of the C7 example run. -/
def c7dem : List DemandSnapshot :=
  [{ product_id := 1, date := 0, demand_score := 8, purchase_count := 0 },
   { product_id := 3, date := 0, demand_score := 6.5, purchase_count := 0 }]

/-- Competitor prices of the C7 example run. -/
def c7comps : List CompetitorPriceObs :=
  [{ product_id := 2, competitor_price := 90 }]

/-- Demand table of the C8 witness: product 2 has no rows at all. -/
def c8dem : List DemandSnapshot :=
  [{ product_id := 1, date := 0, demand_score := 8, purchase_count := 3 }]

theorem floor_cast_le (x : ℚ) : (Rat.floor x : ℚ) ≤ x :=
  Rat.le_floor.mp le_rfl

theorem le_roundHalfEven (x : ℚ) (m : ℤ) (h : (m : ℚ) ≤ x) :
    m ≤ roundHalfEven x := by
  have hm : m ≤ Rat.floor x := Rat.le_floor.mpr h
  unfold roundHalfEven
  split_ifs <;> omega

theorem roundHalfEven_le (x : ℚ) (n : ℤ) (h : x ≤ (n : ℚ)) :
    roundHalfEven x ≤ n := by
  have hf : (Rat.floor x : ℚ) ≤ x := floor_cast_le x
  have hfn : Rat.floor x ≤ n := by exact_mod_cast hf.trans h
  unfold roundHalfEven
  split_ifs with h1 h2 h3
  · exact hfn
  · have hx : (Rat.floor x : ℚ) < x := by linarith
    have : Rat.floor x < n := by exact_mod_cast hx.trans_le h
    omega
  · exact hfn
  · have hr : x - (Rat.floor x : ℚ) = 1/2 := le_antisymm (not_lt.mp h2) (not_lt.mp h1)
    have hx : (Rat.floor x : ℚ) < x := by linarith
    have : Rat.floor x < n := by exact_mod_cast hx.trans_le h
    omega

theorem cent_le_rnd2 {x : ℚ} (m : ℤ) (h : (m : ℚ) / 100 ≤ x) :
    (m : ℚ) / 100 ≤ rnd2 x := by
  have hm : (m : ℚ) ≤ x * 100 := by linarith
  have := le_roundHalfEven (x * 100) m hm
  have : (m : ℚ) ≤ (roundHalfEven (x * 100) : ℚ) := by exact_mod_cast this
  unfold rnd2
  linarith

theorem rnd2_le_cent {x : ℚ} (n : ℤ) (h : x ≤ (n : ℚ) / 100) :
    rnd2 x ≤ (n : ℚ) / 100 := by
  have hn : x * 100 ≤ (n : ℚ) := by linarith
  have := roundHalfEven_le (x * 100) n hn
  have : (roundHalfEven (x * 100) : ℚ) ≤ (n : ℚ) := by exact_mod_cast this
  unfold rnd2
  linarith

theorem rnd2_nonneg {x : ℚ} (h : 0 ≤ x) : 0 ≤ rnd2 x := by
  have := cent_le_rnd2 0 (x := x) (by simpa using h)
  simpa using this

theorem rnd2_nonpos {x : ℚ} (h : x ≤ 0) : rnd2 x ≤ 0 := by
  have := rnd2_le_cent 0 (x := x) (by simpa using h)
  simpa using this

theorem rnd2_mem {a b x : ℚ} (ha : isCent a) (hb : isCent b)
    (h1 : a ≤ x) (h2 : x ≤ b) : a ≤ rnd2 x ∧ rnd2 x ≤ b := by
  obtain ⟨ma, rfl⟩ := ha
  obtain ⟨mb, rfl⟩ := hb
  exact ⟨cent_le_rnd2 ma h1, rnd2_le_cent mb h2⟩

/-- Decomposition of the rule-3 guard. -/
theorem compCond_eq_true {row : Row} (h : compCond row = true) :
    ∃ a, row.avg_competitor_price = some a ∧ a * 1.05 < row.current_price := by
  unfold compCond at h
  cases havg : row.avg_competitor_price with
  | none => rw [havg] at h; cases h
  | some a => rw [havg] at h; exact ⟨a, rfl, of_decide_eq_true h⟩

/-- C1 as stated is false on the code: for `c1row` the Product invariant
`min_price ≤ current_price ≤ max_price` holds, a recommendation is emitted,
and its `recommended_price` (the clamped value rounded to 2 decimals)
exceeds `max_price`. -/
theorem C1_clamp_cex :
    (c1row.min_price ≤ c1row.current_price ∧ c1row.current_price ≤ c1row.max_price) ∧
    ∃ r, recommend c1row = some r ∧ c1row.max_price < r.recommended_price :=
  ⟨by decide,
    ⟨{ product_name := "E1", current_price := 100, recommended_price := 100.01,
       action := Action.INCREASE, change_pct := 0.01, reason := Reason.highDemand 8 },
      by decide, by decide⟩⟩

/-- C1 (amended): for every product row for which rule evaluation emits a
Recommendation, assuming `0 ≤ min_price ≤ current_price ≤ max_price` and
that `min_price` and `max_price` are whole numbers of cents, the emitted
`recommended_price` satisfies `min_price ≤ recommended_price ≤ max_price`
(including rule 3, whose formula carries no explicit `max_price` clamp). -/
theorem C1_bounds (row : Row) (r : Recommendation)
    (h0 : 0 ≤ row.min_price) (h1 : row.min_price ≤ row.current_price)
    (h2 : row.current_price ≤ row.max_price)
    (hcmin : isCent row.min_price) (hcmax : isCent row.max_price)
    (hr : recommend row = some r) :
    row.min_price ≤ r.recommended_price ∧ r.recommended_price ≤ row.max_price := by
  have hcp : (0 : ℚ) ≤ row.current_price := h0.trans h1
  unfold recommend at hr
  split_ifs at hr with hA hB hC hD
  · injection hr with h; subst h
    simp only [emit]
    exact rnd2_mem hcmin hcmax (le_min (by linarith) (h1.trans h2)) (min_le_right _ _)
  · injection hr with h; subst h
    simp only [emit]
    exact rnd2_mem hcmin hcmax (le_max_right _ _) (max_le (by linarith) (h1.trans h2))
  · obtain ⟨a, havg, hlt⟩ := compCond_eq_true hC
    rw [havg] at hr
    injection hr with h; subst h
    simp only [emit, Option.getD_some]
    exact rnd2_mem hcmin hcmax (le_max_right _ _) (max_le (by linarith) (h1.trans h2))
  · injection hr with h; subst h
    simp only [emit]
    exact rnd2_mem hcmin hcmax (le_min (by linarith) (h1.trans h2)) (min_le_right _ _)

theorem C1_bounds_witness :
    c1wrow.min_price ≤ c1wrec.recommended_price ∧
    c1wrec.recommended_price ≤ c1wrow.max_price :=
  C1_bounds c1wrow c1wrec (by decide) (by decide) (by decide)
    ⟨5000, by decide⟩ ⟨12000, by decide⟩ (by decide)

/-- C4: for every product row with `demand_score > 7.5` and
`quantity_available > 50`, the emitted Recommendation has action INCREASE
and `recommended_price = rnd2 (min (current_price * 1.05) max_price)`,
with `change_pct` computed from the unrounded clamped value. -/
theorem C4_rule1 (row : Row) (ds qty : ℚ)
    (hds : row.demand_score = some ds) (h1 : 7.5 < ds)
    (hqty : row.quantity_available = some qty) (h2 : 50 < qty) :
    recommend row =
      some { product_name := row.product_name
             current_price := row.current_price
             recommended_price := rnd2 (min (row.current_price * 1.05) row.max_price)
             action := Action.INCREASE
             change_pct := rnd2 ((min (row.current_price * 1.05) row.max_price -
               row.current_price) / row.current_price * 100)
             reason := Reason.highDemand ds } := by
  have b1 : decide (7.5 < ds) = true := decide_eq_true h1
  have b2 : decide (50 < qty) = true := decide_eq_true h2
  simp [recommend, optGT, hds, hqty, b1, b2, emit]

theorem C4_rule1_witness :
    recommend c4row =
      some { product_name := "P4", current_price := 100, recommended_price := 105,
             action := Action.INCREASE, change_pct := 5,
             reason := Reason.highDemand 8 } :=
  (C4_rule1 c4row 8 60 rfl (by decide) rfl (by decide)).trans (by decide)

/-- C5: for every product row with `demand_score < 5` and
`quantity_available > 100` (rule 1 cannot match such a row), the emitted
Recommendation has action DECREASE and
`recommended_price = rnd2 (max (current_price * 0.92) min_price)`. -/
theorem C5_rule2 (row : Row) (ds qty : ℚ)
    (hds : row.demand_score = some ds) (h1 : ds < 5)
    (hqty : row.quantity_available = some qty) (h2 : 100 < qty) :
    recommend row =
      some { product_name := row.product_name
             current_price := row.current_price
             recommended_price := rnd2 (max (row.current_price * 0.92) row.min_price)
             action := Action.DECREASE
             change_pct := rnd2 ((max (row.current_price * 0.92) row.min_price -
               row.current_price) / row.current_price * 100)
             reason := Reason.lowDemand ds } := by
  have b1 : decide (7.5 < ds) = false := decide_eq_false (by linarith)
  have b2 : decide (ds < 5) = true := decide_eq_true h1
  have b3 : decide (100 < qty) = true := decide_eq_true h2
  simp [recommend, optGT, optLT, hds, hqty, b1, b2, b3, emit]

theorem C5_rule2_witness :
    recommend c5row =
      some { product_name := "P5", current_price := 50, recommended_price := 46,
             action := Action.DECREASE, change_pct := -8,
             reason := Reason.lowDemand 4 } :=
  (C5_rule2 c5row 4 150 rfl (by decide) rfl (by decide)).trans (by decide)

/-- C3: first-match-wins: a row satisfying both rule 1's conditions and
rule 3's conditions gets rule 1's Recommendation (the `elif` ladder stops
at the first match; `recommend` returns an `Option`, so at most one record
is emitted per row). -/
theorem C3_first_match (row : Row) (ds qty a : ℚ)
    (hds : row.demand_score = some ds) (h1 : 7.5 < ds)
    (hqty : row.quantity_available = some qty) (h2 : 50 < qty)
    (_havg : row.avg_competitor_price = some a)
    (_h3 : a * 1.05 < row.current_price) :
    recommend row =
      some { product_name := row.product_name
             current_price := row.current_price
             recommended_price := rnd2 (min (row.current_price * 1.05) row.max_price)
             action := Action.INCREASE
             change_pct := rnd2 ((min (row.current_price * 1.05) row.max_price -
               row.current_price) / row.current_price * 100)
             reason := Reason.highDemand ds } := by
  have b1 : decide (7.5 < ds) = true := decide_eq_true h1
  have b2 : decide (50 < qty) = true := decide_eq_true h2
  simp [recommend, optGT, hds, hqty, b1, b2, emit]

theorem C3_first_match_witness :
    recommend c3row =
      some { product_name := "P3", current_price := 100, recommended_price := 105,
             action := Action.INCREASE, change_pct := 5,
             reason := Reason.highDemand 8 } :=
  (C3_first_match c3row 8 60 90 rfl (by decide) rfl (by decide) rfl (by decide)).trans
    (by decide)

theorem change_nonneg {cp raw : ℚ} (hpos : 0 < cp) (h : cp ≤ raw) :
    0 ≤ rnd2 ((raw - cp) / cp * 100) :=
  rnd2_nonneg (mul_nonneg (div_nonneg (by linarith) hpos.le) (by norm_num))

theorem change_nonpos {cp raw : ℚ} (hpos : 0 < cp) (h : raw ≤ cp) :
    rnd2 ((raw - cp) / cp * 100) ≤ 0 := by
  have h2 : (raw - cp) / cp ≤ 0 := div_nonpos_iff.mpr (Or.inr ⟨by linarith, hpos.le⟩)
  exact rnd2_nonpos (by linarith)

/-- C6: assuming `min_price ≤ current_price ≤ max_price` and
`current_price > 0`, the sign of `change_pct` matches the action of every
emitted Recommendation. -/
theorem C6_sign (row : Row) (r : Recommendation)
    (h1 : row.min_price ≤ row.current_price)
    (h2 : row.current_price ≤ row.max_price)
    (hpos : 0 < row.current_price) (hr : recommend row = some r) :
    (r.action = Action.INCREASE → 0 ≤ r.change_pct) ∧
    (r.action = Action.DECREASE → r.change_pct ≤ 0) := by
  unfold recommend at hr
  split_ifs at hr with hA hB hC hD
  · injection hr with h; subst h
    refine ⟨fun _ => ?_, fun h => by simp [emit] at h⟩
    exact change_nonneg hpos (le_min (by linarith) h2)
  · injection hr with h; subst h
    refine ⟨fun h => by simp [emit] at h, fun _ => ?_⟩
    exact change_nonpos hpos (max_le (by linarith) h1)
  · obtain ⟨a, havg, hlt⟩ := compCond_eq_true hC
    rw [havg] at hr
    injection hr with h; subst h
    refine ⟨fun h => by simp [emit] at h, fun _ => ?_⟩
    simp only [emit, Option.getD_some]
    exact change_nonpos hpos (max_le (by linarith) h1)
  · injection hr with h; subst h
    refine ⟨fun _ => ?_, fun h => by simp [emit] at h⟩
    exact change_nonneg hpos (le_min (by linarith) h2)

theorem C6_sign_witness :
    (c6rec.action = Action.INCREASE → 0 ≤ c6rec.change_pct) ∧
    (c6rec.action = Action.DECREASE → c6rec.change_pct ≤ 0) :=
  C6_sign c6row c6rec (by decide) (by decide) (by decide) (by decide)

/-- C9: a row whose inventory columns are missing after the left join can
only be recommended through rule 3: any emitted record comes with a known
competitor average `a` with `a * 1.05 < current_price` and is rule 3's
DECREASE record. -/
theorem C9_no_inventory (row : Row) (r : Recommendation)
    (hq : row.quantity_available = none) (hs : row.stock_status = none)
    (hr : recommend row = some r) :
    ∃ a, row.avg_competitor_price = some a ∧ a * 1.05 < row.current_price ∧
      r = { product_name := row.product_name
            current_price := row.current_price
            recommended_price := rnd2 (max (a * 0.98) row.min_price)
            action := Action.DECREASE
            change_pct := rnd2 ((max (a * 0.98) row.min_price -
              row.current_price) / row.current_price * 100)
            reason := Reason.aboveCompetitors a } := by
  have e1 : optGT (none : Option ℚ) 50 = false := rfl
  have e2 : optGT (none : Option ℚ) 100 = false := rfl
  have e3 : ((none : Option StockStatus) == some StockStatus.low_stock) = false := rfl
  unfold recommend at hr
  rw [hq, hs, e1, e2, e3, Bool.and_false, Bool.and_false, Bool.false_and] at hr
  rw [if_neg Bool.false_ne_true, if_neg Bool.false_ne_true] at hr
  cases hcc : compCond row with
  | false =>
    rw [hcc] at hr
    rw [if_neg Bool.false_ne_true, if_neg Bool.false_ne_true] at hr
    exact Option.noConfusion hr
  | true =>
    obtain ⟨a, havg, hlt⟩ := compCond_eq_true hcc
    rw [hcc, if_pos rfl] at hr
    refine ⟨a, havg, hlt, ?_⟩
    rw [havg] at hr
    injection hr with h
    rw [← h]
    simp [emit]

theorem C9_no_inventory_witness :
    ∃ a, c9row.avg_competitor_price = some a ∧ a * 1.05 < c9row.current_price ∧
      c9rec = { product_name := c9row.product_name
                current_price := c9row.current_price
                recommended_price := rnd2 (max (a * 0.98) c9row.min_price)
                action := Action.DECREASE
                change_pct := rnd2 ((max (a * 0.98) c9row.min_price -
                  c9row.current_price) / c9row.current_price * 100)
                reason := Reason.aboveCompetitors a } :=
  C9_no_inventory c9row c9rec rfl rfl (by decide)

/-- C10: every emitted record stores `recommended_price` as the rounded
rule formula while `change_pct` is rounded from the unrounded formula;
on `c10row` the stored `change_pct` (5.0) differs from the value
recomputed from the rounded price field (5.01). -/
theorem C10_change_from_unrounded :
    (∀ (row : Row) (r : Recommendation), recommend row = some r →
      ∃ raw, r.recommended_price = rnd2 raw ∧
        r.change_pct = rnd2 ((raw - row.current_price) / row.current_price * 100)) ∧
    ∃ r, recommend c10row = some r ∧
      r.change_pct ≠ rnd2 ((r.recommended_price - c10row.current_price) /
        c10row.current_price * 100) := by
  constructor
  · intro row r hr
    unfold recommend at hr
    split_ifs at hr <;> (injection hr with h; subst h; exact ⟨_, rfl, rfl⟩)
  · exact ⟨{ product_name := "PX", current_price := 33.33, recommended_price := 35,
             action := Action.INCREASE, change_pct := 5,
             reason := Reason.highDemand 8 },
           by decide, by decide⟩

theorem C10_witness :
    ∃ raw, c10rec.recommended_price = rnd2 raw ∧
      c10rec.change_pct = rnd2 ((raw - c10row.current_price) /
        c10row.current_price * 100) :=
  C10_change_from_unrounded.1 c10row c10rec (by decide)

/-- C2 (amended): a product with no demand snapshot on the global latest
date has a missing `demand_score` in the joined view, so rules 1, 2 and 4
cannot fire; if additionally rule 3's competitor condition fails
(competitor average unknown, or `current_price ≤ avg * 1.05`), no
Recommendation is emitted for it. -/
theorem C2_no_latest_snapshot (inv : List InventoryRecord)
    (dem : List DemandSnapshot) (comps : List CompetitorPriceObs) (p : Product)
    (hno : ∀ d ∈ dem, d.product_id = p.product_id → some d.date ≠ maxDemandDate dem)
    (hcomp : ∀ a, avgCompetitorPrice comps p.product_id = some a →
      p.current_price ≤ a * 1.05) :
    (buildRow inv dem comps p).demand_score = none ∧
    recommend (buildRow inv dem comps p) = none := by
  have hfind : (latestDemandRows dem).find?
      (fun d => decide (d.product_id = p.product_id)) = none := by
    rw [List.find?_eq_none]
    intro d hd hdec
    have hmem := List.mem_filter.mp hd
    exact hno d hmem.1 (of_decide_eq_true hdec) (of_decide_eq_true hmem.2)
  have hds : (buildRow inv dem comps p).demand_score = none := by
    show ((latestDemandRows dem).find?
      (fun d => decide (d.product_id = p.product_id))).map (fun d => d.demand_score) = none
    rw [hfind]
    rfl
  have hcc : compCond (buildRow inv dem comps p) = false := by
    unfold compCond
    cases havg : (buildRow inv dem comps p).avg_competitor_price with
    | none => rfl
    | some a =>
      have hle : p.current_price ≤ a * 1.05 := hcomp a havg
      simpa using decide_eq_false (not_lt.mpr hle)
  refine ⟨hds, ?_⟩
  have f1 : optGT (none : Option ℚ) 7.5 = false := rfl
  have f2 : optLT (none : Option ℚ) 5 = false := rfl
  have f3 : optGT (none : Option ℚ) 6 = false := rfl
  unfold recommend
  rw [hds, f1, f2, f3, Bool.false_and, Bool.false_and, Bool.and_false]
  rw [if_neg Bool.false_ne_true, if_neg Bool.false_ne_true, hcc,
    if_neg Bool.false_ne_true, if_neg Bool.false_ne_true]

/-- C2 as stated is false on the code: product 2 has no demand snapshot on
the global latest date, yet the pipeline emits a Recommendation for it
(rule 3 does not test `demand_score`). -/
theorem C2_cex :
    (∀ d ∈ c2dem, d.product_id = 2 → some d.date ≠ maxDemandDate c2dem) ∧
    ∃ r, r ∈ pricing_recommendations c2prods c2inv c2dem c2comps ∧
      r.product_name = "B" := by
  refine ⟨by decide, ?_⟩
  exact ⟨{ product_name := "B", current_price := 20, recommended_price := 9.8,
           action := Action.DECREASE, change_pct := -51,
           reason := Reason.aboveCompetitors 10 }, by decide, rfl⟩

theorem C2_no_latest_snapshot_witness :
    (buildRow [] c2wdem [] c2wprod).demand_score = none ∧
    recommend (buildRow [] c2wdem [] c2wprod) = none :=
  C2_no_latest_snapshot [] c2wdem [] c2wprod (by decide)
    (fun a h => by
      have hn : avgCompetitorPrice ([] : List CompetitorPriceObs)
          c2wprod.product_id = none := by decide
      rw [hn] at h
      exact Option.noConfusion h)

/-- C7: the final recommendation list is sorted by `change_pct` in
descending order (`byDesc` holds for every pair in order, hence for every
adjacent pair); on a run whose rule pass yields `change_pct` values
`[5, -3, 8]`, the output order is `[8, 5, -3]`. -/
theorem C7_sorted :
    (∀ (prods : List Product) (inv : List InventoryRecord)
      (dem : List DemandSnapshot) (comps : List CompetitorPriceObs),
      (pricing_recommendations prods inv dem comps).Pairwise byDesc) ∧
    (pricing_recommendations c7prods c7inv c7dem c7comps).map
      (fun r => r.change_pct) = [8, 5, -3] := by
  refine ⟨fun prods inv dem comps => List.sorted_insertionSort byDesc _, ?_⟩
  decide

/-- C8: if a product has no demand rows in the recent window its
`avg_daily_sales` is 0, and whenever `avg_daily_sales` is 0 the
`days_of_stock` value is the sentinel 999 (the division never raises). -/
theorem C8_days_sentinel (dem : List DemandSnapshot) (pid : Nat) (qty : ℚ) :
    (productWindow dem pid = [] → avgDailySales dem pid = 0) ∧
    (avgDailySales dem pid = 0 → days_of_stock qty (avgDailySales dem pid) = 999) := by
  constructor
  · intro h
    unfold avgDailySales
    rw [h]
    simp
  · intro h
    rw [h]
    unfold days_of_stock
    rw [if_pos rfl]
    decide

theorem C8_days_sentinel_witness :
    days_of_stock 5 (avgDailySales c8dem 2) = 999 :=
  (C8_days_sentinel c8dem 2 5).2 (by decide)

end

end Pricing
